import Mathlib

/-!
Shallow embedding of the SKMA-FON monitoring module
(src/kernel/monitoring_module.c).

Machine integers are modelled as `Nat` with explicit `% 2 ^ 32` where the
C source uses wrapping `u32` arithmetic (the cumulative counters).  The
C `float` field `utilization` is modelled as an exact rational `ℚ`; the
spec only ever constrains it "to floating-point tolerance", so the exact
real-number value is the reference semantics.  `PAGE_SIZE` is fixed at
4096, the usual value on the platforms the module targets.
-/

namespace SkmaFon

def PAGE_SIZE : Nat := 4096

/-- BUFFER_SIZE from line 22: `4 * PAGE_SIZE`, "4 pages for 4 sites". -/
def BUFFER_SIZE : Nat := 4 * PAGE_SIZE

abbrev NUM_SITES : Nat := 4

/-- Modulus of the C `u32` type. -/
def U32_MOD : Nat := 2 ^ 32

/-- Per-site record, `struct site_stats` (lines 27-36).  The
`reserved[8]` padding words are zeroed at init, never read and never
written afterwards, so they are omitted from the embedding. -/
structure SiteStats where
  site_name : String
  timestamp : Nat
  throughput_gbps : Nat
  error_count : Nat
  ber_errors : Nat
  link_status : Nat
  utilization : ℚ
deriving DecidableEq

/-- The store backing `/proc` and the mmap view: a fixed array of
`NUM_SITES` records (`sites_data`, line 42/159). -/
abbrev Store := Fin NUM_SITES → SiteStats

/-- `site_names` (lines 46-51). -/
def site_names : Fin NUM_SITES → String :=
  !["MicrosoftDC", "Dallas", "Dobbins", "Stone"]

/-- One loop iteration of `skma_fon_init` (lines 162-171): seed one
record. -/
def init_site (name : String) (now : Nat) : SiteStats :=
  { site_name := name
    timestamp := now
    throughput_gbps := 1000
    error_count := 0
    ber_errors := 0
    link_status := 1
    utilization := 50 }

/-- The store as it stands right after `skma_fon_init`'s init loop
(lines 158-171), parameterised by the wall-clock seconds read there. -/
def init_store (now : Nat) : Store :=
  fun i => init_site (site_names i) now

/-- The three per-site draws of `get_random_bytes` in one timer tick
(lines 64, 68, 72). -/
structure RandInput where
  randTp : Nat
  randEc : Nat
  randBer : Nat

/-- One site's update inside `update_stats_timer` (lines 59-80):
timestamp := now; throughput := 800 + r % 1200; error_count += r % 3
(u32, wrapping); ber_errors += r % 2 (u32, wrapping); utilization :=
(throughput / 2000.0) * 100 read back from the just-written field;
link_status := 1. -/
def update_site (s : SiteStats) (now randTp randEc randBer : Nat) : SiteStats :=
  let tp := 800 + randTp % 1200
  { s with
    timestamp := now
    throughput_gbps := tp
    error_count := (s.error_count + randEc % 3) % U32_MOD
    ber_errors := (s.ber_errors + randBer % 2) % U32_MOD
    utilization := (tp : ℚ) / 2000 * 100
    link_status := 1 }

/-- `update_stats_timer` (lines 54-84): one full tick, updating every
site in index order with fresh random draws per site. -/
def update_stats_timer (store : Store) (now : Nat)
    (rnds : Fin NUM_SITES → RandInput) : Store :=
  fun i => update_site (store i) now (rnds i).randTp (rnds i).randEc (rnds i).randBer

/-- A sequence of ticks applied to a store; each element carries that
tick's wall-clock reading and its random draws. -/
def run_updates (st : Store)
    (ticks : List (Nat × (Fin NUM_SITES → RandInput))) : Store :=
  ticks.foldl (fun s t => update_stats_timer s t.1 t.2) st

/-- Error numbers used by the module (ENOMEM = 12, EAGAIN = 11,
EINVAL = 22 on Linux). -/
def ENOMEM : Int := 12

def EAGAIN : Int := 11

def EINVAL : Int := 22

/-- `proc_mmap` (lines 114-133).  `size` is the length of the requested
mapping; `remap_fails` models the result of the external
`remap_pfn_range` call (nonzero = failure).  The function never writes
the store, so it returns it unchanged. -/
def proc_mmap (store : Store) (size : Nat) (remap_fails : Bool) : Int × Store :=
  if size > BUFFER_SIZE then (-EINVAL, store)
  else if remap_fails then (-EAGAIN, store)
  else (0, store)

/-!
Field-interleaving model of one site's concurrent update and read.

`update_stats_timer` writes one site's fields one machine store at a
time (lines 61, 65, 69, 73, 76, 79), and `proc_show` (lines 94-103)
reads the same fields one load at a time, with no lock, seqlock or
generation stamp anywhere in the module.  A reader running concurrently
with a tick therefore observes, for each field it reads, the store as it
stands after some prefix of the writer's stores; the prefix index can
only grow as the reader proceeds through its reads in program order.
-/

/-- The six field stores of one site's update, in source order
(lines 61-79).  The utilization store (line 76) reads the
`throughput_gbps` field back from the record, exactly as the source
does. -/
def writer_steps (now randTp randEc randBer : Nat) :
    List (SiteStats → SiteStats) :=
  [ fun s => { s with timestamp := now },
    fun s => { s with throughput_gbps := 800 + randTp % 1200 },
    fun s => { s with error_count := (s.error_count + randEc % 3) % U32_MOD },
    fun s => { s with ber_errors := (s.ber_errors + randBer % 2) % U32_MOD },
    fun s => { s with utilization := (s.throughput_gbps : ℚ) / 2000 * 100 },
    fun s => { s with link_status := 1 } ]

/-- The record as it stands after the first `k` writer stores. -/
def state_at (s0 : SiteStats) (steps : List (SiteStats → SiteStats))
    (k : Nat) : SiteStats :=
  (steps.take k).foldl (fun s f => f s) s0

/-- Every record value that exists at some single instant during the
update: the pre-tick record, each intermediate state, and the post-tick
record. -/
def instants (s0 : SiteStats) (steps : List (SiteStats → SiteStats)) :
    List SiteStats :=
  (List.range (steps.length + 1)).map (state_at s0 steps)

/-- The record `proc_show` assembles for one site when its seven field
loads (name, timestamp, throughput, errors, BER errors, utilization,
link status — print order of lines 95-101) interleave with the writer:
`sched k` is the number of writer stores completed before the reader's
`k`-th load. -/
def reader_observe (s0 : SiteStats) (steps : List (SiteStats → SiteStats))
    (sched : Fin 7 → Nat) : SiteStats :=
  { site_name := (state_at s0 steps (sched 0)).site_name
    timestamp := (state_at s0 steps (sched 1)).timestamp
    throughput_gbps := (state_at s0 steps (sched 2)).throughput_gbps
    error_count := (state_at s0 steps (sched 3)).error_count
    ber_errors := (state_at s0 steps (sched 4)).ber_errors
    link_status := (state_at s0 steps (sched 6)).link_status
    utilization := (state_at s0 steps (sched 5)).utilization }

/-- A pre-tick record for site 0 as produced by init at second 100. -/
def c1_s0 : SiteStats := init_site "MicrosoftDC" 100

/-- A concrete tick on that record: wall clock 200, random draws all 0
(so the new throughput is 800). -/
def c1_steps : List (SiteStats → SiteStats) := writer_steps 200 0 0 0

/-- A reader schedule: the name and timestamp loads happen before the
tick's first store, the remaining loads after its last store.  It is
monotone, so it is a real interleaving. -/
def c1_sched : Fin 7 → Nat := fun i => if (i : Nat) ≤ 1 then 0 else 6

/-!  Lifecycle model: the timer and module exit. -/

/-- The module's mutable state as the timer subsystem sees it: the
store plus whether the update timer is pending (armed).  A timer
callback only runs while the timer is armed; `update_stats_timer`
re-arms it (line 83), and `del_timer_sync` (line 207) disarms it and,
per its kernel contract, does not return until any running callback has
completed and the timer can never fire again. -/
structure ModuleState where
  sites : Store
  timer_active : Bool

/-- A tick attempt: the timer callback fires only if the timer is still
armed; otherwise nothing happens. -/
def tick_event (st : ModuleState) (now : Nat)
    (rnds : Fin NUM_SITES → RandInput) : ModuleState :=
  if st.timer_active then
    { st with sites := update_stats_timer st.sites now rnds }
  else st

/-- `del_timer_sync` (line 207), by its contract: after it returns the
timer is disarmed and no callback is running or will run. -/
def del_timer_sync (st : ModuleState) : ModuleState :=
  { st with timer_active := false }

/-- Any sequence of tick attempts after a given state. -/
def run_ticks (st : ModuleState)
    (evs : List (Nat × (Fin NUM_SITES → RandInput))) : ModuleState :=
  evs.foldl (fun s e => tick_event s e.1 e.2) st

/-!  Startup model: `skma_fon_init` and its unwind paths. -/

/-- Which resources the module currently holds: the kmalloc'd shared
buffer, the `/proc/optifiber` directory, the proc entry, and the armed
timer. -/
structure Resources where
  buffer : Bool
  dir : Bool
  entry : Bool
  timer : Bool
deriving DecidableEq

/-- No resources held (the state before `skma_fon_init` runs). -/
def res0 : Resources := ⟨false, false, false, false⟩

/-- `skma_fon_init` (lines 144-199), with the three fallible external
calls (`kmalloc`, `proc_mkdir`, `proc_create`) modelled by success
flags.  Each failure path mirrors the source's unwind: mkdir failure
frees the buffer (line 177); proc_create failure removes the directory
and frees the buffer (lines 185-186); success arms the timer
(line 192). -/
def skma_fon_init (alloc_ok mkdir_ok create_ok : Bool) : Int × Resources :=
  if alloc_ok = false then (-ENOMEM, res0)
  else
    let r1 : Resources := { res0 with buffer := true }
    if mkdir_ok = false then (-ENOMEM, { r1 with buffer := false })
    else
      let r2 : Resources := { r1 with dir := true }
      if create_ok = false then (-ENOMEM, { r2 with dir := false, buffer := false })
      else (0, { r2 with entry := true, timer := true })

/-!  Concrete iteration used to examine the u32 counters. -/

/-- Constant random draws whose error-count increment is 2 per tick
(`randEc % 3 = 2`) and whose other draws are 0. -/
def c4_rnds : Fin NUM_SITES → RandInput := fun _ => ⟨0, 2, 0⟩

/-- The store after `n` ticks with draws `c4_rnds`, starting from the
initial store. -/
def store_iter (n : Nat) : Store :=
  (fun st => update_stats_timer st 0 c4_rnds)^[n] (init_store 0)

/-- The record `update_site` is run on in the C6 counterexample: an
init-shaped record whose u32 error counter sits at its maximum. -/
def c6_prev : SiteStats :=
  { init_site "MicrosoftDC" 5 with error_count := U32_MOD - 1 }

/-- The per-record postcondition the spec states for one tick:
throughput in [800, 2000), counters grown by [0,3) and [0,2), link UP,
timestamp set to the tick's clock reading and not below the previous
one. -/
def tick_post (s s2 : SiteStats) (now : Nat) : Prop :=
  800 ≤ s2.throughput_gbps ∧ s2.throughput_gbps < 2000 ∧
  s.error_count ≤ s2.error_count ∧ s2.error_count < s.error_count + 3 ∧
  s.ber_errors ≤ s2.ber_errors ∧ s2.ber_errors < s.ber_errors + 2 ∧
  s2.link_status = 1 ∧ s2.timestamp = now ∧ s.timestamp ≤ s2.timestamp

instance (s s2 : SiteStats) (now : Nat) : Decidable (tick_post s s2 now) := by
  unfold tick_post; infer_instance

/-!  Helper lemmas. -/

/-- Folding the six field stores of `writer_steps` is exactly the
atomic `update_site`: the interleaving model and the functional model
agree when no reader intervenes. -/
theorem writer_steps_fold (s : SiteStats) (now a b c : Nat) :
    (writer_steps now a b c).foldl (fun s f => f s) s = update_site s now a b c := rfl

/-- Once the timer is disarmed, tick attempts change nothing. -/
theorem run_ticks_inactive (st : ModuleState) (h : st.timer_active = false)
    (evs : List (Nat × (Fin NUM_SITES → RandInput))) : run_ticks st evs = st := by
  induction evs generalizing st with
  | nil => rfl
  | cons e t ih =>
      have he : tick_event st e.1 e.2 = st := by simp [tick_event, h]
      show run_ticks (tick_event st e.1 e.2) t = st
      rw [he]
      exact ih st h

/-- Unfolding one tick of the concrete counter iteration. -/
theorem store_iter_succ (n : Nat) :
    store_iter (n + 1) = update_stats_timer (store_iter n) 0 c4_rnds := by
  unfold store_iter
  rw [Function.iterate_succ_apply']

/-- Site 0's u32 error counter after `n` ticks of `c4_rnds` is
`2 * n` reduced modulo `2 ^ 32`. -/
theorem store_iter_error_count (n : Nat) :
    ((store_iter n) 0).error_count = (2 * n) % U32_MOD := by
  induction n with
  | zero => simp [store_iter, init_store, init_site, site_names]
  | succ k ih =>
      rw [store_iter_succ]
      simp only [update_stats_timer, update_site, c4_rnds]
      rw [ih]
      simp only [U32_MOD]
      omega

/-- `update_site` always recomputes utilization from the throughput it
just wrote. -/
theorem util_update (s : SiteStats) (now a b c : Nat) :
    (update_site s now a b c).utilization =
      ((update_site s now a b c).throughput_gbps : ℚ) / 2000 * 100 := rfl

/-- The seeded record satisfies the utilization derivation:
`50 = 1000 / 2000 * 100`. -/
theorem util_init_site (name : String) (now : Nat) :
    (init_site name now).utilization =
      ((init_site name now).throughput_gbps : ℚ) / 2000 * 100 := by
  simp [init_site]
  norm_num

/-- The utilization derivation is an invariant of any tick sequence. -/
theorem run_updates_util (st : Store)
    (h : ∀ i, (st i).utilization = ((st i).throughput_gbps : ℚ) / 2000 * 100)
    (ticks : List (Nat × (Fin NUM_SITES → RandInput))) (i : Fin NUM_SITES) :
    (run_updates st ticks i).utilization =
      ((run_updates st ticks i).throughput_gbps : ℚ) / 2000 * 100 := by
  induction ticks generalizing st with
  | nil => exact h i
  | cons e t ih =>
      show (run_updates (update_stats_timer st e.1 e.2) t i).utilization = _
      exact ih _ (fun j => util_update (st j) e.1 (e.2 j).randTp (e.2 j).randEc (e.2 j).randBer)

/-- No tick sequence ever touches a record's name. -/
theorem run_updates_site_name (st : Store)
    (ticks : List (Nat × (Fin NUM_SITES → RandInput))) (i : Fin NUM_SITES) :
    (run_updates st ticks i).site_name = (st i).site_name := by
  induction ticks generalizing st with
  | nil => rfl
  | cons e t ih =>
      show (run_updates (update_stats_timer st e.1 e.2) t i).site_name = _
      rw [ih]
      rfl

/-!  Claim theorems. -/

/-- Claim C1 (refuted; the evaluation at the failing interleaving):
there is a monotone reader schedule — a real interleaving of
`proc_show`'s seven field loads with `update_stats_timer`'s six field
stores — under which the reader returns a record (old timestamp 100
with new throughput 800) that is not among the records existing at any
single instant of the update.  The module has no lock, seqlock or
generation stamp, so nothing rules this interleaving out. -/
theorem C1_torn_record :
    (∀ i j : Fin 7, i ≤ j → c1_sched i ≤ c1_sched j) ∧
    (∀ i : Fin 7, c1_sched i ≤ c1_steps.length) ∧
    reader_observe c1_s0 c1_steps c1_sched ∉ instants c1_s0 c1_steps := by
  decide

/-- Claim C2 (counterexample): a `proc_mmap` request of length 0 — well
within the store size — does not succeed when the underlying
`remap_pfn_range` call fails, contradicting "succeeds for all
`len <= storeSize`". -/
theorem C2_counterexample :
    (0 : Nat) ≤ BUFFER_SIZE ∧ (proc_mmap (init_store 0) 0 true).1 ≠ 0 := by
  constructor <;> decide

/-- Claim C2 (amended): `proc_mmap` fails with `-EINVAL` (SizeExceeded)
exactly when the requested length exceeds `BUFFER_SIZE`, and for a
length within bounds it succeeds exactly when the underlying page
remap succeeds (otherwise it fails with `-EAGAIN`, never with
`-EINVAL`). -/
theorem C2_map_region_size (st : Store) (len : Nat) (rok : Bool) :
    ((proc_mmap st len rok).1 = -EINVAL ↔ BUFFER_SIZE < len) ∧
    ((proc_mmap st len rok).1 = 0 ↔ len ≤ BUFFER_SIZE ∧ rok = false) := by
  unfold proc_mmap EINVAL EAGAIN BUFFER_SIZE PAGE_SIZE
  split_ifs with h1 h2 <;> simp_all

/-- Claim C2 witness: the amended characterisation evaluated at a
concrete in-bounds request with a succeeding remap. -/
theorem C2_map_region_size_witness :
    ((proc_mmap (init_store 0) 64 false).1 = -EINVAL ↔ BUFFER_SIZE < 64) ∧
    ((proc_mmap (init_store 0) 64 false).1 = 0 ↔ 64 ≤ BUFFER_SIZE ∧ false = false) :=
  C2_map_region_size (init_store 0) 64 false

/-- Claim C3: stopping the updater is synchronous.  After
`del_timer_sync` returns, any number of subsequent tick attempts leave
the store exactly as it was at that moment (so its contents are
unchanged until `release`), and the timer stays disarmed, so no tick is
in flight when the buffer is freed. -/
theorem C3_stop_synchronous (st : ModuleState)
    (evs : List (Nat × (Fin NUM_SITES → RandInput))) :
    (run_ticks (del_timer_sync st) evs).sites = st.sites ∧
    (run_ticks (del_timer_sync st) evs).timer_active = false := by
  rw [run_ticks_inactive (del_timer_sync st) rfl evs]
  exact ⟨rfl, rfl⟩

/-- Claim C4 (counterexample): starting from the initial store, a
sequence of ticks whose error-count draw is always 2 drives site 0's
u32 counter to wrap: after `2 ^ 31` ticks the counter (0) is strictly
below its value after `2 ^ 31 - 1` ticks (`2 ^ 32 - 2`), so the
snapshot sequence is not non-decreasing. -/
theorem C4_counterexample :
    ((store_iter (2 ^ 31)) 0).error_count <
      ((store_iter (2 ^ 31 - 1)) 0).error_count := by
  rw [store_iter_error_count, store_iter_error_count]
  norm_num [U32_MOD]

/-- Claim C4 (amended): across one tick, every site's `error_count` and
`ber_errors` do not decrease, provided the u32 addition does not wrap
(counter plus increment stays below `2 ^ 32`). -/
theorem C4_counters_monotone (st : Store) (now : Nat)
    (rnds : Fin NUM_SITES → RandInput) (i : Fin NUM_SITES)
    (hec : (st i).error_count + (rnds i).randEc % 3 < U32_MOD)
    (hber : (st i).ber_errors + (rnds i).randBer % 2 < U32_MOD) :
    (st i).error_count ≤ (update_stats_timer st now rnds i).error_count ∧
    (st i).ber_errors ≤ (update_stats_timer st now rnds i).ber_errors := by
  simp only [update_stats_timer, update_site]
  constructor <;>
    · simp only [U32_MOD] at *
      omega

/-- Claim C4 witness: the amended monotonicity at the initial store
with the concrete draws `c4_rnds`. -/
theorem C4_counters_monotone_witness :
    ((init_store 0) 0).error_count + (c4_rnds 0).randEc % 3 < U32_MOD ∧
    ((init_store 0) 0).ber_errors + (c4_rnds 0).randBer % 2 < U32_MOD ∧
    ((init_store 0) 0).error_count ≤ (update_stats_timer (init_store 0) 5 c4_rnds 0).error_count ∧
    ((init_store 0) 0).ber_errors ≤ (update_stats_timer (init_store 0) 5 c4_rnds 0).ber_errors :=
  ⟨by decide, by decide,
    C4_counters_monotone (init_store 0) 5 c4_rnds 0 (by decide) (by decide)⟩

/-- Claim C5: in every store state reachable by any tick sequence from
the initial store, every site's utilization equals
`throughputGbps / 2000 * 100` (the float is modelled by its exact
rational value): it is recomputed from the current throughput and never
mutated independently. -/
theorem C5_utilization_derived (now : Nat)
    (ticks : List (Nat × (Fin NUM_SITES → RandInput))) (i : Fin NUM_SITES) :
    (run_updates (init_store now) ticks i).utilization =
      ((run_updates (init_store now) ticks i).throughput_gbps : ℚ) / 2000 * 100 :=
  run_updates_util (init_store now) (fun j => util_init_site (site_names j) now) ticks i

/-- Claim C6 (counterexample): on a previous record whose u32 error
counter sits at `2 ^ 32 - 1` and whose timestamp is ahead of the
tick's clock reading, one tick violates the claimed postcondition: the
counter wraps to 1 (it decreases) and the new timestamp 3 is below the
previous timestamp 5. -/
theorem C6_counterexample :
    ¬ tick_post c6_prev (update_site c6_prev 3 0 2 0) 3 := by
  decide

/-- Claim C6 (amended): after one tick on any previous record, the new
record has throughput in [800, 2000), error and BER counters grown by
[0, 3) and [0, 2) respectively, link status UP, and timestamp equal to
the tick's wall-clock reading — provided that reading is not behind the
record's previous timestamp and the u32 counter additions do not
wrap. -/
theorem C6_tick_postconditions (s : SiteStats) (now randTp randEc randBer : Nat)
    (hts : s.timestamp ≤ now)
    (hec : s.error_count + randEc % 3 < U32_MOD)
    (hber : s.ber_errors + randBer % 2 < U32_MOD) :
    tick_post s (update_site s now randTp randEc randBer) now := by
  unfold tick_post
  simp only [update_site]
  refine ⟨by omega, by omega, ?_, ?_, ?_, ?_, by trivial, by trivial, hts⟩ <;>
    · simp only [U32_MOD] at hec hber ⊢
      omega

/-- Claim C6 witness: the amended postcondition evaluated on the seeded
site record at clock 7 with all draws 0. -/
theorem C6_tick_postconditions_witness :
    (init_site "MicrosoftDC" 5).timestamp ≤ 7 ∧
    (init_site "MicrosoftDC" 5).error_count + 0 % 3 < U32_MOD ∧
    (init_site "MicrosoftDC" 5).ber_errors + 0 % 2 < U32_MOD ∧
    tick_post (init_site "MicrosoftDC" 5)
      (update_site (init_site "MicrosoftDC" 5) 7 0 0 0) 7 :=
  ⟨by decide, by decide, by decide,
    C6_tick_postconditions (init_site "MicrosoftDC" 5) 7 0 0 0
      (by decide) (by decide) (by decide)⟩

/-- Claim C7: whenever `skma_fon_init` returns an error — allocation
failure or either proc registration failure — it holds no resources:
the shared buffer (and any registered proc object) has been released,
so no store is leaked on partial failure. -/
theorem C7_no_leak_on_failure (a m c : Bool)
    (h : (skma_fon_init a m c).1 ≠ 0) :
    (skma_fon_init a m c).2 = res0 := by
  cases a <;> cases m <;> cases c <;> revert h <;> decide

/-- Claim C7 witness: the directory-registration failure path evaluated
concretely. -/
theorem C7_no_leak_on_failure_witness :
    (skma_fon_init true false true).1 ≠ 0 ∧
    (skma_fon_init true false true).2 = res0 :=
  ⟨by decide, C7_no_leak_on_failure true false true (by decide)⟩

/-- Claim C8: after any tick sequence from the initial store, position
`i` still carries exactly the name `site_names i` it was given at
initialization: names are never modified by ticks and the index-to-site
mapping is fixed for the process lifetime. -/
theorem C8_names_fixed (now : Nat)
    (ticks : List (Nat × (Fin NUM_SITES → RandInput))) (i : Fin NUM_SITES) :
    (run_updates (init_store now) ticks i).site_name = site_names i := by
  rw [run_updates_site_name]
  rfl

/-- Claim C9: a mapping request strictly larger than the store is
rejected with `-EINVAL` (SizeExceeded) and the store is returned
completely unchanged — no partial mapping, no state change. -/
theorem C9_oversize_rejected (st : Store) (len : Nat) (rok : Bool)
    (h : BUFFER_SIZE < len) :
    proc_mmap st len rok = (-EINVAL, st) := by
  unfold proc_mmap
  rw [if_pos h]

/-- Claim C9 witness: the rejection evaluated at length
`BUFFER_SIZE + 1` on the initial store. -/
theorem C9_oversize_rejected_witness :
    BUFFER_SIZE < BUFFER_SIZE + 1 ∧
    proc_mmap (init_store 0) (BUFFER_SIZE + 1) false = (-EINVAL, init_store 0) :=
  ⟨by decide, C9_oversize_rejected (init_store 0) (BUFFER_SIZE + 1) false (by decide)⟩

/-- Claim C10: after any tick, every site's utilization lies in
[40, 100): the throughput written is `800 + r % 1200 ∈ [800, 2000)`, so
the derived utilization `throughput / 2000 * 100` is at least 40 and
strictly below 100. -/
theorem C10_utilization_bounds (st : Store) (now : Nat)
    (rnds : Fin NUM_SITES → RandInput) (i : Fin NUM_SITES) :
    40 ≤ (update_stats_timer st now rnds i).utilization ∧
    (update_stats_timer st now rnds i).utilization < 100 := by
  have h1 : (rnds i).randTp % 1200 < 1200 := Nat.mod_lt _ (by norm_num)
  simp only [update_stats_timer, update_site]
  constructor
  · rw [div_mul_eq_mul_div, le_div_iff₀ (by norm_num : (0:ℚ) < 2000)]
    push_cast
    nlinarith
  · rw [div_mul_eq_mul_div, div_lt_iff₀ (by norm_num : (0:ℚ) < 2000)]
    have h2 : (((rnds i).randTp % 1200 : Nat) : ℚ) < 1200 := by exact_mod_cast h1
    push_cast
    nlinarith

end SkmaFon
